import Mathlib

/-!
# Verification of the usqlr connection pool and MCP dispatcher

Shallow embedding of the usqlr server core: the `ConnectionPool` and
`Connection` operations (creation, lookup, close, query and statement
execution) and the MCP JSON-RPC tool dispatch layer (`handleToolsCall`,
the tool handlers, and the static `capabilities`/`tools/list` catalogues).

External collaborators (the `dburl` parser, the database drivers, the Go
`database/sql` handle, JSON marshalling, and the wall clock) are modelled
as explicit inputs: a `Backend` record of parse/open/ping/close
capabilities, a `DriverRows`/`DriverExecResult` value describing what the
driver returned for one call, a byte-to-string conversion function, and a
`Nat`-valued clock passed per call.  All pool and connection state is a
plain value; Go's in-place pointer mutation of a `Connection` is modelled
by writing the updated record back into the pool's association list.
-/

deriving instance DecidableEq for Except

/-- An open database handle.  Handles are produced by the external driver
layer; only their identity matters here. -/
abbrev Handle := Nat

/-- The parsed description of a DSN, as produced by `dburl.Parse` and
retained on a `Connection` for display (driver kind, host, path). -/
structure DbUrl where
  driver : String
  host : String
  path : String
deriving DecidableEq

/-- The external driver collaborator: `dburl.Parse`, `drivers.Open`,
`DB.PingContext` and `DB.Close`.  Errors are carried as their message
strings.  `closeDB` returns `some e` when closing the handle fails. -/
structure Backend where
  parse : String → Except String DbUrl
  openDB : DbUrl → Except String Handle
  ping : Handle → Except String Unit
  closeDB : Handle → Option String

/-- A pooled database connection: identity, parsed URL, handle, and the
creation / last-used timestamps (clock values are abstract `Nat`s). -/
structure Connection where
  ID : String
  URL : DbUrl
  DB : Handle
  Created : Nat
  LastUsed : Nat
deriving DecidableEq

/-- The connection pool state: the identity-to-connection mapping (a Go
map, modelled as an association list with unique keys) and the configured
capacity ceiling `maxConns`. -/
structure ConnectionPool where
  connections : List (String × Connection)
  maxConns : Nat
deriving DecidableEq

/-- Server configuration consumed by the pool (`config.Server.MaxConnections`). -/
structure ServerConfig where
  MaxConnections : Nat
deriving DecidableEq

/-- Process configuration; only the server section matters to the pool. -/
structure Config where
  Server : ServerConfig
deriving DecidableEq

/-- `NewConnectionPool`: an empty mapping with the configured ceiling. -/
def NewConnectionPool (config : Config) : ConnectionPool :=
  { connections := [], maxConns := config.Server.MaxConnections }

/-- The pool-level error values, one per `fmt.Errorf` site in the source. -/
inductive PoolError
  | duplicateID (id : String)
  | capacityExceeded (limit : Nat)
  | invalidDSN (e : String)
  | openFailed (e : String)
  | pingFailed (e : String)
  | notFound (id : String)
deriving DecidableEq

/-- The error message attached at each `fmt.Errorf` site. -/
def PoolError.message : PoolError → String
  | .duplicateID id => "connection with ID " ++ id ++ " already exists"
  | .capacityExceeded limit =>
      "connection pool limit reached (max: " ++ toString limit ++ ")"
  | .invalidDSN e => "failed to parse DSN: " ++ e
  | .openFailed e => "failed to open database connection: " ++ e
  | .pingFailed e => "failed to ping database: " ++ e
  | .notFound id => "connection with ID " ++ id ++ " not found"

/-- Handle lifecycle events emitted by a pool operation, used to state
the no-leaked-handles property. -/
inductive DBEvent
  | opened (h : Handle)
  | closed (h : Handle)
deriving DecidableEq

/-- Go map lookup `cp.connections[id]` on the association list. -/
def lookupConn : List (String × Connection) → String → Option Connection
  | [], _ => none
  | (k, c) :: rest, id => if k = id then some c else lookupConn rest id

/-- Go map deletion `delete(cp.connections, id)` on the association list. -/
def eraseConn : List (String × Connection) → String → List (String × Connection)
  | [], _ => []
  | (k, c) :: rest, id =>
      if k = id then eraseConn rest id else (k, c) :: eraseConn rest id

/-- In-place mutation of the `Connection` stored under `id` (Go mutates
through the shared pointer; here the updated record is written back). -/
def updateConnEntry (l : List (String × Connection)) (id : String) (c : Connection) :
    List (String × Connection) :=
  l.map (fun p => if p.1 = id then (p.1, c) else p)

/-- `Except.isOk` as a plain boolean. -/
def isOkE : Except ε α → Bool
  | .ok _ => true
  | .error _ => false

/-- `ConnectionPool.CreateConnection`: duplicate-id check, capacity check,
DSN parse, driver open, liveness ping, then insert.  The third component
is the trace of handle lifecycle events: on ping failure the freshly
opened handle is closed (`db.Close()`) before the error is returned. -/
def ConnectionPool.CreateConnection (cp : ConnectionPool) (be : Backend) (now : Nat)
    (id dsn : String) : ConnectionPool × Except PoolError Connection × List DBEvent :=
  if (lookupConn cp.connections id).isSome then
    (cp, .error (.duplicateID id), [])
  else if cp.maxConns ≤ cp.connections.length then
    (cp, .error (.capacityExceeded cp.maxConns), [])
  else
    match be.parse dsn with
    | .error e => (cp, .error (.invalidDSN e), [])
    | .ok u =>
      match be.openDB u with
      | .error e => (cp, .error (.openFailed e), [])
      | .ok db =>
        match be.ping db with
        | .error e => (cp, .error (.pingFailed e), [.opened db, .closed db])
        | .ok _ =>
          let conn : Connection :=
            { ID := id, URL := u, DB := db, Created := now, LastUsed := now }
          ({ cp with connections := (id, conn) :: cp.connections },
            .ok conn, [.opened db])

/-- `ConnectionPool.GetConnection`: look the id up and bump the
connection's last-used timestamp to the current clock value. -/
def ConnectionPool.GetConnection (cp : ConnectionPool) (now : Nat) (id : String) :
    ConnectionPool × Except PoolError Connection :=
  match lookupConn cp.connections id with
  | none => (cp, .error (.notFound id))
  | some conn =>
    let conn' := { conn with LastUsed := now }
    ({ cp with connections := updateConnEntry cp.connections id conn' }, .ok conn')

/-- `ConnectionPool.CloseConnection`: close the handle and remove the
entry, or fail with the not-found error. -/
def ConnectionPool.CloseConnection (cp : ConnectionPool) (id : String) :
    ConnectionPool × Except PoolError Unit × List DBEvent :=
  match lookupConn cp.connections id with
  | none => (cp, .error (.notFound id), [])
  | some conn =>
    ({ cp with connections := eraseConn cp.connections id },
      .ok (), [.closed conn.DB])

/-- The read-only per-connection info record returned by `ListConnections`. -/
structure ConnectionInfo where
  ID : String
  Driver : String
  Host : String
  Database : String
  Created : Nat
  LastUsed : Nat
deriving DecidableEq

/-- `ConnectionPool.ListConnections`: a snapshot of id-to-info records. -/
def ConnectionPool.ListConnections (cp : ConnectionPool) :
    List (String × ConnectionInfo) :=
  cp.connections.map (fun p =>
    (p.1,
      { ID := p.2.ID, Driver := p.2.URL.driver, Host := p.2.URL.host,
        Database := p.2.URL.path, Created := p.2.Created,
        LastUsed := p.2.LastUsed }))

/-- `ConnectionPool.CheckConnection`: look the id up and ping the handle.
The source reads the map under the lock and then pings; it performs no
write to the pool or to the connection (the pair's first component is the
pool handed back unchanged).  A ping failure is wrapped as `pingFailed`
carrying the driver's message. -/
def ConnectionPool.CheckConnection (cp : ConnectionPool) (be : Backend) (id : String) :
    ConnectionPool × Except PoolError Unit :=
  match lookupConn cp.connections id with
  | none => (cp, .error (.notFound id))
  | some conn =>
    match be.ping conn.DB with
    | .ok _ => (cp, .ok ())
    | .error e => (cp, .error (.pingFailed e))

/-- Pool-wide `Close`: close every handle (recording the last close error
encountered, best-effort) and empty the mapping. -/
def ConnectionPool.Close (cp : ConnectionPool) (be : Backend) :
    ConnectionPool × Option String × List DBEvent :=
  ({ cp with connections := [] },
   cp.connections.foldl
     (fun acc p => match be.closeDB p.2.DB with | some e => some e | none => acc)
     none,
   cp.connections.map (fun p => DBEvent.closed p.2.DB))

/-- `ConnectionPool.Size`: the current entry count. -/
def ConnectionPool.Size (cp : ConnectionPool) : Nat :=
  cp.connections.length

/-! ## Connection-level execution

`Connection.ExecuteQuery` and `Connection.ExecuteStatement` talk to the
driver handle.  What the driver returned for one call is passed in as an
explicit value (`DriverRows` / `DriverExecResult`); the functions below
are the source's processing of that answer. -/

/-- A driver-native column value as surfaced by `database/sql` scanning
into `interface{}`: `nil`, integers, booleans, strings, or raw byte
slices.  (Floating-point values are outside the embedding.) -/
inductive DriverValue
  | nullV
  | intV (i : Int)
  | boolV (b : Bool)
  | strV (s : String)
  | bytesV (bs : List Nat)
deriving DecidableEq

/-- `QueryResult`: column names, column type names, and the materialized
rows. -/
structure QueryResult where
  Columns : List String
  ColumnTypes : List String
  Rows : List (List DriverValue)
deriving DecidableEq

/-- The error values of `Connection.ExecuteQuery`, one per `fmt.Errorf`
site. -/
inductive QueryError
  | queryFailed (e : String)
  | columnsFailed (e : String)
  | columnTypesFailed (e : String)
  | scanFailed (e : String)
  | iterationFailed (e : String)
deriving DecidableEq

/-- The error message attached at each `fmt.Errorf` site of `ExecuteQuery`. -/
def QueryError.message : QueryError → String
  | .queryFailed e => "query execution failed: " ++ e
  | .columnsFailed e => "failed to get columns: " ++ e
  | .columnTypesFailed e => "failed to get column types: " ++ e
  | .scanFailed e => "failed to scan row: " ++ e
  | .iterationFailed e => "row iteration error: " ++ e

/-- What `database/sql` delivers for one successful `QueryContext` call.
`cols` pairs each column's name with its `DatabaseTypeName` — in
`database/sql` both `Rows.Columns()` and `Rows.ColumnTypes()` are derived
from the driver's single column list, so they always agree in length.
`colsErr` / `colTypesErr` are the possible errors of those two accessors,
`rows` the values yielded by the `Next`/`Scan` iteration, and `iterErr`
the value of `Rows.Err()` once iteration stops. -/
structure DriverRows where
  cols : List (String × String)
  colsErr : Option String
  colTypesErr : Option String
  rows : List (List DriverValue)
  iterErr : Option String
deriving DecidableEq

/-- The per-value conversion applied while materializing a row: byte
slices become text via the string conversion `b2s` (Go's `string(b)`);
every other value passes through unchanged. -/
def convertValue (b2s : List Nat → String) : DriverValue → DriverValue
  | .bytesV bs => .strV (b2s bs)
  | v => v

/-- The `rows.Next()` / `rows.Scan(...)` loop: each driver row is scanned
into `ncols` destinations (`database/sql` errors when the counts differ),
then byte values are converted; the first scan error aborts the loop. -/
def scanRows (b2s : List Nat → String) (ncols : Nat) :
    List (List DriverValue) → Except String (List (List DriverValue))
  | [] => .ok []
  | r :: rs =>
    if r.length = ncols then
      match scanRows b2s ncols rs with
      | .error e => .error e
      | .ok rest => .ok ((r.map (convertValue b2s)) :: rest)
    else
      .error "scan destination count mismatch"

/-- `Connection.ExecuteQuery`: bump the last-used timestamp, then process
the driver's answer: query error, column introspection errors, the scan
loop, and the final `rows.Err()` check, assembling a `QueryResult` with
names, type names, and the eagerly materialized rows. -/
def Connection.ExecuteQuery (conn : Connection) (b2s : List Nat → String)
    (now : Nat) (qres : Except String DriverRows) :
    Connection × Except QueryError QueryResult :=
  let conn' := { conn with LastUsed := now }
  match qres with
  | .error e => (conn', .error (.queryFailed e))
  | .ok dr =>
    match dr.colsErr with
    | some e => (conn', .error (.columnsFailed e))
    | none =>
      match dr.colTypesErr with
      | some e => (conn', .error (.columnTypesFailed e))
      | none =>
        let columns := dr.cols.map Prod.fst
        let columnTypes := dr.cols.map Prod.snd
        match scanRows b2s columns.length dr.rows with
        | .error e => (conn', .error (.scanFailed e))
        | .ok rs =>
          match dr.iterErr with
          | some e => (conn', .error (.iterationFailed e))
          | none =>
            (conn', .ok { Columns := columns, ColumnTypes := columnTypes, Rows := rs })

/-- `StatementResult`: signed rows-affected and last-insert-id counts. -/
structure StatementResult where
  RowsAffected : Int
  LastInsertId : Int
deriving DecidableEq

/-- What the driver's `ExecContext` result object answers: each accessor
independently either reports a value or errors (drivers that do not
support the accessor return an error). -/
structure DriverExecResult where
  rowsAffected : Except String Int
  lastInsertId : Except String Int
deriving DecidableEq

/-- The error value of `Connection.ExecuteStatement`. -/
inductive StatementError
  | statementFailed (e : String)
deriving DecidableEq

/-- `Connection.ExecuteStatement`: bump the last-used timestamp, run the
statement, and fall back to `-1` independently for each of
rows-affected / last-insert-id when the driver cannot report it. -/
def Connection.ExecuteStatement (conn : Connection) (now : Nat)
    (eres : Except String DriverExecResult) :
    Connection × Except StatementError StatementResult :=
  let conn' := { conn with LastUsed := now }
  match eres with
  | .error e => (conn', .error (.statementFailed e))
  | .ok r =>
    let rowsAffected : Int := match r.rowsAffected with | .ok v => v | .error _ => -1
    let lastInsertId : Int := match r.lastInsertId with | .ok v => v | .error _ => -1
    (conn', .ok { RowsAffected := rowsAffected, LastInsertId := lastInsertId })

/-! ## MCP dispatch layer

The JSON-RPC `tools/call` handler and the four tool handlers, plus the
static name catalogues of `capabilities` and `tools/list`.  Decoded JSON
is modelled by `JValue`; Go's `x.(string)` / `x.(map[string]interface\x7b\x7d)`
type assertions become the `asString` / `asObj` / array pattern matches
below. -/

/-- A decoded JSON value (`interface\x7b\x7d` after `encoding/json` decoding). -/
inductive JValue
  | nullJ
  | boolJ (b : Bool)
  | numJ (n : Int)
  | strJ (s : String)
  | arrJ (xs : List JValue)
  | objJ (fields : List (String × JValue))

/-- Whether a decoded JSON value is an array (`x.([]interface\x7b\x7d)` succeeds). -/
def JValue.isArr : JValue → Bool
  | .arrJ _ => true
  | _ => false

/-- Go map lookup on a decoded JSON object. -/
def jLookup : List (String × JValue) → String → Option JValue
  | [], _ => none
  | (k, v) :: rest, key => if k = key then some v else jLookup rest key

/-- Go map deletion on a decoded JSON object (used to compare a request
against the same request with a key omitted). -/
def jErase : List (String × JValue) → String → List (String × JValue)
  | [], _ => []
  | (k, v) :: rest, key =>
      if k = key then jErase rest key else (k, v) :: jErase rest key

/-- The type assertion `v.(string)` on an optional lookup result. -/
def asString : Option JValue → Option String
  | some (.strJ s) => some s
  | _ => none

/-- The type assertion `v.(map[string]interface\x7b\x7d)` on an optional
lookup result. -/
def asObj : Option JValue → Option (List (String × JValue))
  | some (.objJ fields) => some fields
  | _ => none

/-- The optional-`args` parsing shared by `toolExecuteQuery` and
`toolExecuteStatement`: if the key exists and type-asserts to an array
its elements are used, otherwise the argument slice stays `nil`. -/
def parseOptionalArgs (args : List (String × JValue)) : List JValue :=
  match jLookup args "args" with
  | some (.arrJ xs) => xs
  | _ => []

/-- A successful tool result's payload: the JSON-marshalled query or
statement result, or a plain confirmation message.  (Marshalling of these
value shapes cannot fail and is external; the payload keeps the value.) -/
inductive ToolPayload
  | queryRes (r : QueryResult)
  | stmtRes (r : StatementResult)
  | message (s : String)
deriving DecidableEq

/-- The JSON-RPC response produced by a tool invocation: either a success
payload or an error object (numeric code, message, optional string data). -/
inductive ToolResponse
  | success (p : ToolPayload)
  | rpcError (code : Int) (message : String) (data : Option String)
deriving DecidableEq

/-- A pool or connection operation actually invoked by a tool handler,
recorded as a trace so that "no operation was invoked" is statable. -/
inductive PoolOp
  | getConn (id : String)
  | createConn (id dsn : String)
  | closeConn (id : String)
  | execQuery (db : Handle) (query : String) (args : List JValue)
  | execStmt (db : Handle) (statement : String) (args : List JValue)

/-- The environment a tool invocation runs against: the pool state, the
driver backend, the clock, the byte-to-string conversion, and what the
driver answers to a query / statement on a given handle with given
arguments. -/
structure McpEnv where
  pool : ConnectionPool
  be : Backend
  now : Nat
  b2s : List Nat → String
  queryDriver : Handle → String → List JValue → Except String DriverRows
  execDriver : Handle → String → List JValue → Except String DriverExecResult

/-- `toolExecuteQuery`: validate `connection_id` and `query`, fetch the
connection (a failure is reported as InvalidParams "connection not
found"), parse the optional `args` array, execute, and wrap the result. -/
def toolExecuteQuery (env : McpEnv) (args : List (String × JValue)) :
    ConnectionPool × ToolResponse × List PoolOp :=
  match asString (jLookup args "connection_id") with
  | none =>
      (env.pool, .rpcError (-32602) "Invalid params" (some "connection_id is required"), [])
  | some connectionID =>
    match asString (jLookup args "query") with
    | none =>
        (env.pool, .rpcError (-32602) "Invalid params" (some "query is required"), [])
    | some query =>
      match env.pool.GetConnection env.now connectionID with
      | (pool1, .error _) =>
          (pool1, .rpcError (-32602) "Invalid params"
            (some ("connection not found: " ++ connectionID)),
           [.getConn connectionID])
      | (pool1, .ok conn) =>
        let queryArgs := parseOptionalArgs args
        let step := conn.ExecuteQuery env.b2s env.now (env.queryDriver conn.DB query queryArgs)
        let pool2 :=
          { pool1 with connections := updateConnEntry pool1.connections connectionID step.1 }
        match step.2 with
        | .error e =>
            (pool2, .rpcError (-32603) "Query execution failed" (some e.message),
             [.getConn connectionID, .execQuery conn.DB query queryArgs])
        | .ok r =>
            (pool2, .success (.queryRes r),
             [.getConn connectionID, .execQuery conn.DB query queryArgs])

/-- `toolCreateConnection`: validate `connection_id` and `dsn`, then
delegate to `ConnectionPool.CreateConnection`, reporting a failure as an
InternalError (-32603) carrying the pool error's message. -/
def toolCreateConnection (env : McpEnv) (args : List (String × JValue)) :
    ConnectionPool × ToolResponse × List PoolOp :=
  match asString (jLookup args "connection_id") with
  | none =>
      (env.pool, .rpcError (-32602) "Invalid params" (some "connection_id is required"), [])
  | some connectionID =>
    match asString (jLookup args "dsn") with
    | none =>
        (env.pool, .rpcError (-32602) "Invalid params" (some "dsn is required"), [])
    | some dsn =>
      match env.pool.CreateConnection env.be env.now connectionID dsn with
      | (pool1, .error e, _) =>
          (pool1, .rpcError (-32603) "Connection creation failed" (some e.message),
           [.createConn connectionID dsn])
      | (pool1, .ok _, _) =>
          (pool1,
           .success (.message ("Successfully created connection: " ++ connectionID)),
           [.createConn connectionID dsn])

/-- `toolCloseConnection`: validate `connection_id`, then delegate to
`ConnectionPool.CloseConnection`. -/
def toolCloseConnection (env : McpEnv) (args : List (String × JValue)) :
    ConnectionPool × ToolResponse × List PoolOp :=
  match asString (jLookup args "connection_id") with
  | none =>
      (env.pool, .rpcError (-32602) "Invalid params" (some "connection_id is required"), [])
  | some connectionID =>
    match env.pool.CloseConnection connectionID with
    | (pool1, .error e, _) =>
        (pool1, .rpcError (-32603) "Connection close failed" (some e.message),
         [.closeConn connectionID])
    | (pool1, .ok _, _) =>
        (pool1,
         .success (.message ("Successfully closed connection: " ++ connectionID)),
         [.closeConn connectionID])

/-- `toolExecuteStatement`: validate `connection_id` and `statement`,
fetch the connection, parse the optional `args` array, execute, and wrap
the result. -/
def toolExecuteStatement (env : McpEnv) (args : List (String × JValue)) :
    ConnectionPool × ToolResponse × List PoolOp :=
  match asString (jLookup args "connection_id") with
  | none =>
      (env.pool, .rpcError (-32602) "Invalid params" (some "connection_id is required"), [])
  | some connectionID =>
    match asString (jLookup args "statement") with
    | none =>
        (env.pool, .rpcError (-32602) "Invalid params" (some "statement is required"), [])
    | some statement =>
      match env.pool.GetConnection env.now connectionID with
      | (pool1, .error _) =>
          (pool1, .rpcError (-32602) "Invalid params"
            (some ("connection not found: " ++ connectionID)),
           [.getConn connectionID])
      | (pool1, .ok conn) =>
        let stmtArgs := parseOptionalArgs args
        let step := conn.ExecuteStatement env.now (env.execDriver conn.DB statement stmtArgs)
        let pool2 :=
          { pool1 with connections := updateConnEntry pool1.connections connectionID step.1 }
        match step.2 with
        | .error e =>
            (pool2,
             .rpcError (-32603) "Statement execution failed"
               (some (match e with | .statementFailed m => "statement execution failed: " ++ m)),
             [.getConn connectionID, .execStmt conn.DB statement stmtArgs])
        | .ok r =>
            (pool2, .success (.stmtRes r),
             [.getConn connectionID, .execStmt conn.DB statement stmtArgs])

/-- `handleToolsCall`: require `params` to be an object with a string
`name` and an object `arguments`, then dispatch on the tool name; any
other name is rejected as InvalidParams with the unknown name in the
diagnostic data, without touching the pool. -/
def handleToolsCall (env : McpEnv) (params : JValue) :
    ConnectionPool × ToolResponse × List PoolOp :=
  match params with
  | .objJ fields =>
    match asString (jLookup fields "name") with
    | none =>
        (env.pool, .rpcError (-32602) "Invalid params" (some "name is required"), [])
    | some name =>
      match asObj (jLookup fields "arguments") with
      | none =>
          (env.pool, .rpcError (-32602) "Invalid params" (some "arguments is required"), [])
      | some arguments =>
        if name = "execute_query" then toolExecuteQuery env arguments
        else if name = "create_connection" then toolCreateConnection env arguments
        else if name = "close_connection" then toolCloseConnection env arguments
        else if name = "execute_statement" then toolExecuteStatement env arguments
        else
          (env.pool, .rpcError (-32602) "Invalid params" (some ("unknown tool: " ++ name)), [])
  | _ =>
      (env.pool, .rpcError (-32602) "Invalid params" (some "params must be an object"), [])

/-- The tool names `handleToolsCall` dispatches to a handler (the cases
of its switch). -/
def dispatchedToolNames : List String :=
  ["execute_query", "create_connection", "close_connection", "execute_statement"]

/-- The `tools` list of the static `capabilities` response
(`handleCapabilities`). -/
def capabilitiesTools : List String :=
  ["execute_query", "create_connection", "close_connection"]

/-- The `resources` list of the static `capabilities` response. -/
def capabilitiesResources : List String :=
  ["list_databases", "schema_info", "connection_status"]

/-- The tool names advertised with schemas by `tools/list`
(`handleToolsList`). -/
def toolsListNames : List String :=
  ["execute_query", "create_connection", "close_connection", "execute_statement"]

/-! ## Association-list lemmas -/

theorem lookupConn_mem {l : List (String × Connection)} {id : String} {c : Connection}
    (h : lookupConn l id = some c) : (id, c) ∈ l := by
  induction l with
  | nil => simp [lookupConn] at h
  | cons p rest ih =>
    obtain ⟨k, c'⟩ := p
    by_cases hk : k = id
    · subst hk
      simp [lookupConn] at h
      subst h
      exact List.mem_cons_self _ _
    · simp [lookupConn, hk] at h
      exact List.mem_cons_of_mem _ (ih h)

theorem lookupConn_eq_none {l : List (String × Connection)} {id : String} :
    lookupConn l id = none ↔ ∀ p ∈ l, p.1 ≠ id := by
  induction l with
  | nil => simp [lookupConn]
  | cons p rest ih =>
    obtain ⟨k, c⟩ := p
    by_cases hk : k = id
    · subst hk
      simp [lookupConn]
    · simp [lookupConn, hk, ih]

theorem lookupConn_cons_ne {l : List (String × Connection)} {k id : String}
    {c : Connection} (h : k ≠ id) :
    lookupConn ((k, c) :: l) id = lookupConn l id := by
  simp [lookupConn, h]

theorem eraseConn_subset {l : List (String × Connection)} {id : String}
    {p : String × Connection} (h : p ∈ eraseConn l id) : p ∈ l := by
  induction l with
  | nil => simp [eraseConn] at h
  | cons q rest ih =>
    obtain ⟨k, c⟩ := q
    by_cases hk : k = id
    · simp [eraseConn, hk] at h
      exact List.mem_cons_of_mem _ (ih h)
    · simp [eraseConn, hk] at h
      rcases h with h | h
      · exact h ▸ List.mem_cons_self _ _
      · exact List.mem_cons_of_mem _ (ih h)

theorem eraseConn_length_le (l : List (String × Connection)) (id : String) :
    (eraseConn l id).length ≤ l.length := by
  induction l with
  | nil => simp [eraseConn]
  | cons q rest ih =>
    obtain ⟨k, c⟩ := q
    by_cases hk : k = id
    · simp only [eraseConn, hk, if_true]
      exact Nat.le_succ_of_le ih
    · simp only [eraseConn, hk, if_false, List.length_cons]
      exact Nat.succ_le_succ ih

theorem lookupConn_eraseConn_self (l : List (String × Connection)) (id : String) :
    lookupConn (eraseConn l id) id = none := by
  rw [lookupConn_eq_none]
  intro p hp
  induction l with
  | nil => simp [eraseConn] at hp
  | cons q rest ih =>
    obtain ⟨k, c⟩ := q
    by_cases hk : k = id
    · simp [eraseConn, hk] at hp
      exact ih hp
    · simp [eraseConn, hk] at hp
      rcases hp with hp | hp
      · exact hp ▸ hk
      · exact ih hp

theorem lookupConn_eraseConn_none {l : List (String × Connection)} {k id : String}
    (h : lookupConn l k = none) : lookupConn (eraseConn l id) k = none := by
  rw [lookupConn_eq_none] at h ⊢
  exact fun p hp => h p (eraseConn_subset hp)

theorem updateConnEntry_length (l : List (String × Connection)) (id : String)
    (c : Connection) : (updateConnEntry l id c).length = l.length := by
  simp [updateConnEntry]

theorem lookupConn_updateConnEntry_none {l : List (String × Connection)} {k id : String}
    {c : Connection} (h : lookupConn l k = none) :
    lookupConn (updateConnEntry l id c) k = none := by
  rw [lookupConn_eq_none] at h ⊢
  intro p hp
  simp only [updateConnEntry, List.mem_map] at hp
  obtain ⟨q, hq, hpq⟩ := hp
  by_cases hq1 : q.1 = id
  · simp [hq1] at hpq
    rw [← hpq]
    exact hq1 ▸ h q hq
  · simp [hq1] at hpq
    exact hpq ▸ h q hq

theorem lookupConn_updateConnEntry_some {l : List (String × Connection)} {id : String}
    {c c' : Connection} (h : lookupConn l id = some c) :
    lookupConn (updateConnEntry l id c') id = some c' := by
  induction l with
  | nil => simp [lookupConn] at h
  | cons q rest ih =>
    obtain ⟨k, cc⟩ := q
    by_cases hk : k = id
    · subst hk
      simp only [updateConnEntry, List.map_cons]
      simp [lookupConn]
    · simp only [lookupConn, hk, if_false] at h
      simp only [updateConnEntry, List.map_cons, hk, if_false]
      rw [lookupConn_cons_ne hk]
      exact ih h

theorem updateConnEntry_WF {l : List (String × Connection)} {id : String} {c : Connection}
    (hl : ∀ p ∈ l, p.2.ID = p.1) (hc : c.ID = id) :
    ∀ p ∈ updateConnEntry l id c, p.2.ID = p.1 := by
  intro p hp
  simp only [updateConnEntry, List.mem_map] at hp
  obtain ⟨q, hq, hpq⟩ := hp
  by_cases hq1 : q.1 = id
  · simp [hq1] at hpq
    rw [← hpq]
    exact hc
  · simp [hq1] at hpq
    exact hpq ▸ hl q hq

/-! ## Characterizations of the pool operations -/

/-- `CreateConnection` either fails — pool handed back unchanged and
every opened handle closed in the event trace — or succeeds, in which
case the id was free, the pool was strictly below capacity, and the new
entry (whose `ID` field is the requested id) is prepended. -/
theorem CreateConnection_spec (cp : ConnectionPool) (be : Backend) (now : Nat)
    (id dsn : String) :
    (isOkE (cp.CreateConnection be now id dsn).2.1 = false ∧
      (cp.CreateConnection be now id dsn).1 = cp ∧
      (∀ hdl, DBEvent.opened hdl ∈ (cp.CreateConnection be now id dsn).2.2 →
        DBEvent.closed hdl ∈ (cp.CreateConnection be now id dsn).2.2)) ∨
    (isOkE (cp.CreateConnection be now id dsn).2.1 = true ∧
      lookupConn cp.connections id = none ∧
      cp.connections.length < cp.maxConns ∧
      ∃ conn : Connection, conn.ID = id ∧
        (cp.CreateConnection be now id dsn).1 =
          { cp with connections := (id, conn) :: cp.connections }) := by
  unfold ConnectionPool.CreateConnection
  cases hl : lookupConn cp.connections id with
  | some c =>
    left
    simp [hl, isOkE]
  | none =>
    by_cases hcap : cp.maxConns ≤ cp.connections.length
    · left
      simp [hl, hcap, isOkE]
    · cases hp : be.parse dsn with
      | error e => left; simp [hl, hcap, hp, isOkE]
      | ok u =>
        cases ho : be.openDB u with
        | error e => left; simp [hl, hcap, hp, ho, isOkE]
        | ok db =>
          cases hg : be.ping db with
          | error e =>
            left
            refine ⟨?_, ?_, ?_⟩ <;> simp [hl, hcap, hp, ho, hg, isOkE]
          | ok _ =>
            right
            refine ⟨?_, rfl, Nat.lt_of_not_le hcap, ?_⟩
            · simp [hl, hcap, hp, ho, hg, isOkE]
            · exact ⟨{ ID := id, URL := u, DB := db, Created := now, LastUsed := now },
                rfl, by simp [hl, hcap, hp, ho, hg]⟩

/-- `GetConnection` either fails with the not-found error on an absent
id, handing the pool back unchanged, or returns the stored connection
with its last-used timestamp bumped to the current clock, written back
into the mapping. -/
theorem GetConnection_spec (cp : ConnectionPool) (now : Nat) (id : String) :
    (lookupConn cp.connections id = none ∧
      (cp.GetConnection now id) = (cp, .error (.notFound id))) ∨
    (∃ c, lookupConn cp.connections id = some c ∧
      (cp.GetConnection now id) =
        ({ cp with connections := updateConnEntry cp.connections id { c with LastUsed := now } },
          .ok { c with LastUsed := now })) := by
  unfold ConnectionPool.GetConnection
  cases hl : lookupConn cp.connections id with
  | none => left; exact ⟨rfl, rfl⟩
  | some c => right; exact ⟨c, rfl, rfl⟩

/-- `CloseConnection` either fails with the not-found error on an absent
id, handing the pool back unchanged, or removes the entry and closes its
handle. -/
theorem CloseConnection_spec (cp : ConnectionPool) (id : String) :
    (lookupConn cp.connections id = none ∧
      (cp.CloseConnection id) = (cp, .error (.notFound id), [])) ∨
    (∃ c, lookupConn cp.connections id = some c ∧
      (cp.CloseConnection id) =
        ({ cp with connections := eraseConn cp.connections id },
          .ok (), [.closed c.DB])) := by
  unfold ConnectionPool.CloseConnection
  cases hl : lookupConn cp.connections id with
  | none => left; exact ⟨rfl, rfl⟩
  | some c => right; exact ⟨c, rfl, rfl⟩

/-- The first component of `Connection.ExecuteQuery` is always the
connection with its last-used timestamp bumped, whatever the driver
answered. -/
theorem ExecuteQuery_fst (conn : Connection) (b2s : List Nat → String) (now : Nat)
    (qres : Except String DriverRows) :
    (conn.ExecuteQuery b2s now qres).1 = { conn with LastUsed := now } := by
  unfold Connection.ExecuteQuery
  cases qres with
  | error e => rfl
  | ok dr =>
    dsimp only
    split
    · rfl
    · split
      · rfl
      · split
        · rfl
        · split <;> rfl

/-- The first component of `Connection.ExecuteStatement` is always the
connection with its last-used timestamp bumped. -/
theorem ExecuteStatement_fst (conn : Connection) (now : Nat)
    (eres : Except String DriverExecResult) :
    (conn.ExecuteStatement now eres).1 = { conn with LastUsed := now } := by
  unfold Connection.ExecuteStatement
  cases eres with
  | error e => rfl
  | ok r => rfl

/-! ## Operation sequences over the pool -/

/-- One pool operation of the kinds named by the reachability claims:
create, get, close-one, or pool-wide shutdown, with the clock value the
operation observes. -/
inductive PoolCmd
  | create (now : Nat) (id dsn : String)
  | get (now : Nat) (id : String)
  | close (id : String)
  | shutdown
deriving DecidableEq

/-- The pool state after one operation (results discarded). -/
def runCmd (be : Backend) (cp : ConnectionPool) : PoolCmd → ConnectionPool
  | .create now id dsn => (cp.CreateConnection be now id dsn).1
  | .get now id => (cp.GetConnection now id).1
  | .close id => (cp.CloseConnection id).1
  | .shutdown => (cp.Close be).1

/-- The pool state after a sequence of operations. -/
def runCmds (be : Backend) (cp : ConnectionPool) (cmds : List PoolCmd) : ConnectionPool :=
  cmds.foldl (runCmd be) cp

/-- Whether one command is a `CreateConnection` call for `id` that
succeeds from the given pool state. -/
def cmdCreatesId (be : Backend) (cp : ConnectionPool) (cmd : PoolCmd) (id : String) : Bool :=
  match cmd with
  | .create now cid dsn => cid == id && isOkE (cp.CreateConnection be now cid dsn).2.1
  | _ => false

/-- Whether any command of the sequence, run from the given pool state,
is a successful `CreateConnection` for `id`. -/
def createsIdOk (be : Backend) : ConnectionPool → List PoolCmd → String → Bool
  | _, [], _ => false
  | cp, cmd :: rest, id =>
      cmdCreatesId be cp cmd id || createsIdOk be (runCmd be cp cmd) rest id

/-- The well-formedness invariant of a pool state: the mapping respects
the capacity ceiling and every entry's `ID` field equals its key. -/
def poolWFP (cp : ConnectionPool) : Prop :=
  cp.connections.length ≤ cp.maxConns ∧ ∀ p ∈ cp.connections, p.2.ID = p.1

theorem runCmd_maxConns (be : Backend) (cp : ConnectionPool) (cmd : PoolCmd) :
    (runCmd be cp cmd).maxConns = cp.maxConns := by
  cases cmd with
  | create now id dsn =>
    rcases CreateConnection_spec cp be now id dsn with ⟨_, hpool, _⟩ | ⟨_, _, _, conn, _, hpool⟩ <;>
      simp [runCmd, hpool]
  | get now id =>
    rcases GetConnection_spec cp now id with ⟨_, hpool⟩ | ⟨c, _, hpool⟩ <;>
      simp [runCmd, hpool]
  | close id =>
    rcases CloseConnection_spec cp id with ⟨_, hpool⟩ | ⟨c, _, hpool⟩ <;>
      simp [runCmd, hpool]
  | shutdown => rfl

theorem runCmds_maxConns (be : Backend) (cp : ConnectionPool) (cmds : List PoolCmd) :
    (runCmds be cp cmds).maxConns = cp.maxConns := by
  induction cmds generalizing cp with
  | nil => rfl
  | cons cmd rest ih =>
    rw [runCmds, List.foldl_cons, ← runCmds]
    rw [ih, runCmd_maxConns]

theorem runCmd_WF (be : Backend) (cp : ConnectionPool) (cmd : PoolCmd)
    (h : poolWFP cp) : poolWFP (runCmd be cp cmd) := by
  obtain ⟨hlen, hids⟩ := h
  cases cmd with
  | create now id dsn =>
    rcases CreateConnection_spec cp be now id dsn with ⟨_, hpool, _⟩ | ⟨_, _, hlt, conn, hid, hpool⟩
    · simpa [runCmd, hpool] using ⟨hlen, hids⟩
    · constructor
      · simp [runCmd, hpool]
        exact hlt
      · intro p hp
        simp only [runCmd, hpool, List.mem_cons] at hp
        rcases hp with hp | hp
        · simp [hp, hid]
        · exact hids p hp
  | get now id =>
    rcases GetConnection_spec cp now id with ⟨_, hpool⟩ | ⟨c, hc, hpool⟩
    · simpa [runCmd, hpool] using ⟨hlen, hids⟩
    · constructor
      · simp [runCmd, hpool, updateConnEntry_length]
        exact hlen
      · intro p hp
        simp only [runCmd, hpool] at hp
        have hcid : ({ c with LastUsed := now } : Connection).ID = id :=
          hids _ (lookupConn_mem hc)
        exact updateConnEntry_WF hids hcid p hp
  | close id =>
    rcases CloseConnection_spec cp id with ⟨_, hpool⟩ | ⟨c, hc, hpool⟩
    · simpa [runCmd, hpool] using ⟨hlen, hids⟩
    · constructor
      · simp only [runCmd, hpool]
        exact Nat.le_trans (eraseConn_length_le _ _) hlen
      · intro p hp
        simp only [runCmd, hpool] at hp
        exact hids p (eraseConn_subset hp)
  | shutdown =>
    exact ⟨Nat.zero_le _, by simp [runCmd, ConnectionPool.Close]⟩

theorem runCmds_WF (be : Backend) (cp : ConnectionPool) (cmds : List PoolCmd)
    (h : poolWFP cp) : poolWFP (runCmds be cp cmds) := by
  induction cmds generalizing cp with
  | nil => exact h
  | cons cmd rest ih =>
    rw [runCmds, List.foldl_cons, ← runCmds]
    exact ih _ (runCmd_WF be cp cmd h)

/-- An absent id stays absent across one operation, unless that operation
is a `CreateConnection` for this very id that succeeds. -/
theorem absent_runCmd (be : Backend) (cp : ConnectionPool) (cmd : PoolCmd) (id : String)
    (h : lookupConn cp.connections id = none)
    (hnc : cmdCreatesId be cp cmd id = false) :
    lookupConn ((runCmd be cp cmd).connections) id = none := by
  cases cmd with
  | create now cid dsn =>
    rcases CreateConnection_spec cp be now cid dsn with ⟨_, hpool, _⟩ | ⟨hok, _, _, conn, _, hpool⟩
    · simpa [runCmd, hpool] using h
    · by_cases hcid : cid = id
      · subst hcid
        simp [cmdCreatesId, hok] at hnc
      · simp only [runCmd, hpool]
        rw [lookupConn_cons_ne hcid]
        exact h
  | get now gid =>
    rcases GetConnection_spec cp now gid with ⟨_, hpool⟩ | ⟨c, _, hpool⟩
    · simpa [runCmd, hpool] using h
    · simp only [runCmd, hpool]
      exact lookupConn_updateConnEntry_none h
  | close cid =>
    rcases CloseConnection_spec cp cid with ⟨_, hpool⟩ | ⟨c, _, hpool⟩
    · simpa [runCmd, hpool] using h
    · simp only [runCmd, hpool]
      exact lookupConn_eraseConn_none h
  | shutdown => rfl

/-- An absent id stays absent across any operation sequence that contains
no successful `CreateConnection` for it. -/
theorem absent_runCmds (be : Backend) (cp : ConnectionPool) (cmds : List PoolCmd) (id : String)
    (h : lookupConn cp.connections id = none)
    (hnc : createsIdOk be cp cmds id = false) :
    lookupConn ((runCmds be cp cmds).connections) id = none := by
  induction cmds generalizing cp with
  | nil => exact h
  | cons cmd rest ih =>
    rw [createsIdOk, Bool.or_eq_false_iff] at hnc
    rw [runCmds, List.foldl_cons, ← runCmds]
    exact ih _ (absent_runCmd be cp cmd id h hnc.1) hnc.2

/-! ## Lemmas about row scanning and JSON objects -/

theorem scanRows_ok {b2s : List Nat → String} {n : Nat}
    {rows rs : List (List DriverValue)} (h : scanRows b2s n rows = .ok rs) :
    rs = rows.map (fun r => r.map (convertValue b2s)) ∧ ∀ r ∈ rows, r.length = n := by
  induction rows generalizing rs with
  | nil =>
    simp only [scanRows] at h
    cases h
    simp
  | cons r rest ih =>
    simp only [scanRows] at h
    by_cases hr : r.length = n
    · rw [if_pos hr] at h
      cases hrest : scanRows b2s n rest with
      | error e => rw [hrest] at h; cases h
      | ok rest' =>
        rw [hrest] at h
        cases h
        obtain ⟨h1, h2⟩ := ih hrest
        refine ⟨by simp [h1], ?_⟩
        intro q hq
        rcases List.mem_cons.mp hq with hq | hq
        · exact hq ▸ hr
        · exact h2 q hq
    · rw [if_neg hr] at h
      cases h

theorem jLookup_jErase_self (l : List (String × JValue)) (key : String) :
    jLookup (jErase l key) key = none := by
  induction l with
  | nil => rfl
  | cons p rest ih =>
    obtain ⟨k, v⟩ := p
    by_cases hk : k = key
    · simp only [jErase, hk, if_true]
      exact ih
    · simp only [jErase, hk, if_false, jLookup]
      exact ih

theorem jLookup_jErase_ne {k key : String} (h : k ≠ key) (l : List (String × JValue)) :
    jLookup (jErase l key) k = jLookup l k := by
  induction l with
  | nil => rfl
  | cons p rest ih =>
    obtain ⟨k', v⟩ := p
    by_cases hk : k' = key
    · simp only [jErase, hk, if_true]
      rw [ih, jLookup]
      have hne : ¬ (key = k) := fun he => h he.symm
      rw [if_neg hne]
    · simp only [jErase, hk, if_false, jLookup]
      by_cases hkk : k' = k
      · rw [if_pos hkk, if_pos hkk]
      · rw [if_neg hkk, if_neg hkk]
        exact ih

/-! ## Concrete fixtures for witnesses and counterexamples -/

/-- A driver backend whose DSN parser rejects every connection string. -/
def beReject : Backend :=
  { parse := fun _ => .error "unknown scheme",
    openDB := fun _ => .error "no driver",
    ping := fun _ => .error "unreachable",
    closeDB := fun _ => none }

/-- A driver backend that parses and opens (handle 9) but whose liveness
ping fails. -/
def bePingFail : Backend :=
  { parse := fun _ => .ok { driver := "postgres", host := "db", path := "/app" },
    openDB := fun _ => .ok 9,
    ping := fun _ => .error "connection refused",
    closeDB := fun _ => none }

/-- A driver backend for which everything succeeds (handle 7). -/
def beAccept : Backend :=
  { parse := fun _ => .ok { driver := "sqlite3", host := "", path := "mem.db" },
    openDB := fun _ => .ok 7,
    ping := fun _ => .ok (),
    closeDB := fun _ => none }

/-- A connection fixture with identity "a" and last-used clock 0. -/
def connA : Connection :=
  { ID := "a", URL := { driver := "sqlite3", host := "", path := "a.db" },
    DB := 1, Created := 0, LastUsed := 0 }

/-- A pool fixture holding only `connA` under key "a", ceiling 4. -/
def poolA : ConnectionPool :=
  { connections := [("a", connA)], maxConns := 4 }

/-- A configuration fixture with a ceiling of 4 connections. -/
def cfg4 : Config := { Server := { MaxConnections := 4 } }

/-- An MCP environment fixture over `poolA` with a rejecting backend and
failing drivers (the witnesses below never reach a driver call). -/
def env0 : McpEnv :=
  { pool := poolA, be := beReject, now := 0, b2s := fun _ => "",
    queryDriver := fun _ _ _ => .error "driver down",
    execDriver := fun _ _ _ => .error "driver down" }

/-! ## Claim theorems -/

/-- C2 (corrected, amended part): `CheckConnection` hands the pool back
unchanged — in particular it does not touch the probed connection's
last-used timestamp — while `GetConnection`, `ExecuteQuery` and
`ExecuteStatement` do set the last-used timestamp to the call's clock
value. -/
theorem checkConnection_no_lastUsed_update (cp : ConnectionPool) (be : Backend)
    (id : String) (now : Nat) (b2s : List Nat → String) (conn c : Connection)
    (qres : Except String DriverRows) (eres : Except String DriverExecResult)
    (h : lookupConn cp.connections id = some c) :
    (cp.CheckConnection be id).1 = cp ∧
    lookupConn ((cp.GetConnection now id).1.connections) id =
      some { c with LastUsed := now } ∧
    (conn.ExecuteQuery b2s now qres).1.LastUsed = now ∧
    (conn.ExecuteStatement now eres).1.LastUsed = now := by
  refine ⟨?_, ?_, ?_, ?_⟩
  · unfold ConnectionPool.CheckConnection
    cases hl : lookupConn cp.connections id with
    | none => rfl
    | some c' =>
      cases hping : be.ping c'.DB with
      | ok _ => simp [hping]
      | error e => simp [hping]
  · rcases GetConnection_spec cp now id with ⟨hn, _⟩ | ⟨c', hc', hpair⟩
    · rw [hn] at h; cases h
    · rw [h] at hc'
      cases hc'
      have hfst : (cp.GetConnection now id).1 =
          { cp with connections := updateConnEntry cp.connections id { c with LastUsed := now } } :=
        congrArg Prod.fst hpair
      rw [hfst]
      exact lookupConn_updateConnEntry_some h
  · rw [ExecuteQuery_fst]
  · rw [ExecuteStatement_fst]

/-- Witness for C2's amended theorem at `poolA` / `connA`. -/
theorem checkConnection_no_lastUsed_update_witness :
    lookupConn poolA.connections "a" = some connA ∧
    (poolA.CheckConnection beAccept "a").1 = poolA ∧
    lookupConn ((poolA.GetConnection 5 "a").1.connections) "a" =
      some { connA with LastUsed := 5 } :=
  ⟨by decide,
   (checkConnection_no_lastUsed_update poolA beAccept "a" 5 (fun _ => "") connA connA
      (.error "") (.error "") (by decide)).1,
   (checkConnection_no_lastUsed_update poolA beAccept "a" 5 (fun _ => "") connA connA
      (.error "") (.error "") (by decide)).2.1⟩

/-- C2 (counterexample to the claim as stated): on a pool holding
connection "a" with last-used clock 0, `CheckConnection` returns the pool
entirely unchanged — the entry's last-used timestamp is still 0 — whereas
an operation that does update the timestamp, such as `GetConnection` at
clock 5, leaves it at 5.  (`CheckConnection` never reads the clock at
all: the source pings the handle without writing `LastUsed`.) -/
theorem checkConnection_lastUsed_counterexample :
    (poolA.CheckConnection beAccept "a").1 = poolA ∧
    (lookupConn (poolA.CheckConnection beAccept "a").1.connections "a").map
      Connection.LastUsed = some 0 ∧
    (lookupConn ((poolA.GetConnection 5 "a").1.connections) "a").map
      Connection.LastUsed = some 5 := by
  decide

/-- C3: whenever `CreateConnection` fails — for any of the duplicate-id,
capacity, DSN-parse, open or ping reasons — the pool mapping and its size
are exactly as before the call, and every handle opened during the call
(the ping-failure case) is closed in the same call's event trace before
the error is returned. -/
theorem createConnection_failure_atomic (cp : ConnectionPool) (be : Backend) (now : Nat)
    (id dsn : String)
    (h : isOkE (cp.CreateConnection be now id dsn).2.1 = false) :
    (cp.CreateConnection be now id dsn).1 = cp ∧
    (cp.CreateConnection be now id dsn).1.Size = cp.Size ∧
    (∀ hdl, DBEvent.opened hdl ∈ (cp.CreateConnection be now id dsn).2.2 →
      DBEvent.closed hdl ∈ (cp.CreateConnection be now id dsn).2.2) := by
  rcases CreateConnection_spec cp be now id dsn with ⟨_, hpool, hev⟩ | ⟨hok, _⟩
  · exact ⟨hpool, by rw [hpool], hev⟩
  · rw [hok] at h
    cases h

/-- Witness for C3: a ping-failure create on a fresh pool leaves the pool
unchanged and the opened handle 9 is closed in the trace. -/
theorem createConnection_failure_atomic_witness :
    isOkE ((NewConnectionPool cfg4).CreateConnection bePingFail 0 "a" "x").2.1 = false ∧
    ((NewConnectionPool cfg4).CreateConnection bePingFail 0 "a" "x").1 =
      NewConnectionPool cfg4 ∧
    DBEvent.closed 9 ∈ ((NewConnectionPool cfg4).CreateConnection bePingFail 0 "a" "x").2.2 :=
  ⟨by decide,
   (createConnection_failure_atomic (NewConnectionPool cfg4) bePingFail 0 "a" "x"
      (by decide)).1,
   (createConnection_failure_atomic (NewConnectionPool cfg4) bePingFail 0 "a" "x"
      (by decide)).2.2 9 (by decide)⟩

/-- C4: when the id is already present, `CreateConnection` always fails
with the duplicate-id error (whatever the dsn), and the pool — including
the existing entry — is exactly as before. -/
theorem createConnection_duplicate_id (cp : ConnectionPool) (be : Backend) (now : Nat)
    (id dsn : String) (c : Connection) (h : lookupConn cp.connections id = some c) :
    cp.CreateConnection be now id dsn = (cp, .error (.duplicateID id), []) ∧
    lookupConn ((cp.CreateConnection be now id dsn).1.connections) id = some c := by
  have h1 : cp.CreateConnection be now id dsn = (cp, .error (.duplicateID id), []) := by
    unfold ConnectionPool.CreateConnection
    rw [h]
    rfl
  refine ⟨h1, ?_⟩
  rw [h1]
  exact h

/-- Witness for C4 at `poolA` (id "a" is present) with an accepting
backend: even a dsn the backend would accept fails with duplicate-id. -/
theorem createConnection_duplicate_id_witness :
    lookupConn poolA.connections "a" = some connA ∧
    poolA.CreateConnection beAccept 0 "a" "sqlite3://mem.db" =
      (poolA, .error (.duplicateID "a"), []) :=
  ⟨by decide,
   (createConnection_duplicate_id poolA beAccept 0 "a" "sqlite3://mem.db" connA
      (by decide)).1⟩

/-- C5: in every pool state reachable from a fresh pool by any sequence
of create / get / close / pool-wide-close operations, the mapping size
never exceeds the configured maximum connection count, and every stored
connection's `ID` field equals its map key. -/
theorem pool_reachable_invariant (config : Config) (be : Backend) (cmds : List PoolCmd) :
    (runCmds be (NewConnectionPool config) cmds).Size ≤ config.Server.MaxConnections ∧
    (runCmds be (NewConnectionPool config) cmds).connections.all
      (fun p => p.2.ID == p.1) = true := by
  obtain ⟨h1, h2⟩ := runCmds_WF be (NewConnectionPool config) cmds
    ⟨Nat.zero_le _, by simp [NewConnectionPool]⟩
  constructor
  · have hmax : (runCmds be (NewConnectionPool config) cmds).maxConns =
        config.Server.MaxConnections := by
      rw [runCmds_maxConns]
      rfl
    exact hmax ▸ h1
  · rw [List.all_eq_true]
    intro p hp
    simpa using h2 p hp

/-- C6: once `CloseConnection(id)` succeeds, any later state reached
without an intervening successful `CreateConnection` for the same id has
`GetConnection(id)` failing with the not-found error and
`ListConnections()` omitting the id. -/
theorem closeConnection_permanent (be : Backend) (cp : ConnectionPool) (id : String)
    (cmds : List PoolCmd) (now : Nat)
    (hclose : isOkE (cp.CloseConnection id).2.1 = true)
    (hnc : createsIdOk be (cp.CloseConnection id).1 cmds id = false) :
    ((runCmds be (cp.CloseConnection id).1 cmds).GetConnection now id).2 =
      .error (.notFound id) ∧
    ((runCmds be (cp.CloseConnection id).1 cmds).ListConnections).all
      (fun p => !(p.1 == id)) = true := by
  have habsent : lookupConn ((cp.CloseConnection id).1.connections) id = none := by
    rcases CloseConnection_spec cp id with ⟨hn, hpair⟩ | ⟨c, hc, hpair⟩
    · rw [hpair] at hclose
      simp [isOkE] at hclose
    · rw [hpair]
      exact lookupConn_eraseConn_self _ _
  have hfin := absent_runCmds be _ cmds id habsent hnc
  constructor
  · rcases GetConnection_spec (runCmds be (cp.CloseConnection id).1 cmds) now id with
      ⟨_, hpair⟩ | ⟨c, hc, _⟩
    · rw [hpair]
    · rw [hfin] at hc
      cases hc
  · rw [List.all_eq_true]
    intro p hp
    simp only [ConnectionPool.ListConnections, List.mem_map] at hp
    obtain ⟨q, hq, hpq⟩ := hp
    have hqid : q.1 ≠ id := (lookupConn_eq_none.mp hfin) q hq
    rw [← hpq]
    simpa using hqid

/-- Witness for C6: close "a" on `poolA`, then run a (failing) create of
"a"; afterwards `GetConnection "a"` reports not-found and the snapshot
omits "a". -/
theorem closeConnection_permanent_witness :
    isOkE (poolA.CloseConnection "a").2.1 = true ∧
    createsIdOk beReject (poolA.CloseConnection "a").1 [.create 3 "a" "x"] "a" = false ∧
    ((runCmds beReject (poolA.CloseConnection "a").1 [.create 3 "a" "x"]).GetConnection
        7 "a").2 = .error (.notFound "a") ∧
    ((runCmds beReject (poolA.CloseConnection "a").1
        [.create 3 "a" "x"]).ListConnections).all (fun p => !(p.1 == "a")) = true :=
  ⟨by decide, by decide,
   (closeConnection_permanent beReject poolA "a" [.create 3 "a" "x"] 7
      (by decide) (by decide)).1,
   (closeConnection_permanent beReject poolA "a" [.create 3 "a" "x"] 7
      (by decide) (by decide)).2⟩

/-- C7: every successful `ExecuteQuery` result has as many column type
names as column names, every row has exactly that many values, and the
rows are exactly the driver's rows with each byte-slice value converted
to text (`convertValue` maps `bytesV bs` to `strV (b2s bs)` and leaves
every other value unchanged). -/
theorem executeQuery_result_shape (conn : Connection) (b2s : List Nat → String)
    (now : Nat) (dr : DriverRows) (res : QueryResult)
    (h : (conn.ExecuteQuery b2s now (.ok dr)).2 = .ok res) :
    res.ColumnTypes.length = res.Columns.length ∧
    res.Rows.all (fun row => row.length == res.Columns.length) = true ∧
    res.Rows = dr.rows.map (fun r => r.map (convertValue b2s)) := by
  unfold Connection.ExecuteQuery at h
  dsimp only at h
  cases h1 : dr.colsErr with
  | some e => rw [h1] at h; cases h
  | none =>
    rw [h1] at h
    cases h2 : dr.colTypesErr with
    | some e => rw [h2] at h; cases h
    | none =>
      rw [h2] at h
      cases h3 : scanRows b2s (dr.cols.map Prod.fst).length dr.rows with
      | error e => rw [h3] at h; cases h
      | ok rs =>
        rw [h3] at h
        cases h4 : dr.iterErr with
        | some e => rw [h4] at h; cases h
        | none =>
          rw [h4] at h
          dsimp only at h
          injection h with h
          subst h
          obtain ⟨hrs, hlen⟩ := scanRows_ok h3
          refine ⟨by simp, ?_, hrs⟩
          rw [List.all_eq_true]
          intro row hrow
          rw [hrs] at hrow
          simp only [List.mem_map] at hrow
          obtain ⟨r, hr, hrr⟩ := hrow
          have : row.length = (dr.cols.map Prod.fst).length := by
            rw [← hrr, List.length_map]
            exact hlen r hr
          simpa using this

/-- Witness for C7 on a one-column, one-row driver answer containing a
byte-slice value. -/
theorem executeQuery_result_shape_witness :
    (connA.ExecuteQuery (fun _ => "hi") 3
        (.ok { cols := [("x", "TEXT")], colsErr := none, colTypesErr := none,
               rows := [[.bytesV [104, 105]]], iterErr := none })).2 =
      .ok { Columns := ["x"], ColumnTypes := ["TEXT"], Rows := [[.strV "hi"]] } ∧
    ["TEXT"].length = ["x"].length ∧
    ([[DriverValue.strV "hi"]] : List (List DriverValue)).all
      (fun row => row.length == (["x"] : List String).length) = true :=
  ⟨by decide,
   (executeQuery_result_shape connA (fun _ => "hi") 3
      { cols := [("x", "TEXT")], colsErr := none, colTypesErr := none,
        rows := [[.bytesV [104, 105]]], iterErr := none }
      { Columns := ["x"], ColumnTypes := ["TEXT"], Rows := [[.strV "hi"]] }
      (by decide)).1,
   (executeQuery_result_shape connA (fun _ => "hi") 3
      { cols := [("x", "TEXT")], colsErr := none, colTypesErr := none,
        rows := [[.bytesV [104, 105]]], iterErr := none }
      { Columns := ["x"], ColumnTypes := ["TEXT"], Rows := [[.strV "hi"]] }
      (by decide)).2.1⟩

/-- C8: when the backend executes the statement successfully,
`ExecuteStatement` always returns a `StatementResult`; its rows-affected
and last-insert-id fields are each, independently, either the value the
driver reported or exactly -1 when the driver's accessor errored. -/
theorem executeStatement_sentinel (conn : Connection) (now : Nat)
    (der : DriverExecResult) :
    ∃ sres : StatementResult,
      (conn.ExecuteStatement now (.ok der)).2 = .ok sres ∧
      (der.rowsAffected = .ok sres.RowsAffected ∨
        (isOkE der.rowsAffected = false ∧ sres.RowsAffected = -1)) ∧
      (der.lastInsertId = .ok sres.LastInsertId ∨
        (isOkE der.lastInsertId = false ∧ sres.LastInsertId = -1)) := by
  refine ⟨_, rfl, ?_, ?_⟩
  · cases hra : der.rowsAffected with
    | ok v => left; rfl
    | error e => right; exact ⟨rfl, rfl⟩
  · cases hli : der.lastInsertId with
    | ok v => left; rfl
    | error e => right; exact ⟨rfl, rfl⟩

/-- C1 (documents the code bug): the `capabilities` response's tool list
omits `execute_statement`, even though `tools/call` dispatches it to a
tool handler (the request below reaches the handler's own argument
validation rather than the unknown-tool rejection) and `tools/list`
advertises it with a schema — so the capabilities tool list does not
coincide with the `tools/call` vocabulary. -/
theorem capabilities_tools_mismatch :
    "execute_statement" ∉ capabilitiesTools ∧
    "execute_statement" ∈ dispatchedToolNames ∧
    "execute_statement" ∈ toolsListNames ∧
    ∀ env : McpEnv,
      (handleToolsCall env (.objJ [("name", .strJ "execute_statement"),
          ("arguments", .objJ [])])).2.1 =
        .rpcError (-32602) "Invalid params" (some "connection_id is required") := by
  refine ⟨by decide, by decide, by decide, fun env => ?_⟩
  rfl

/-- C9: a well-formed `tools/call` request (string `name`, object
`arguments`) whose name is none of the four dispatched tools yields the
InvalidParams (-32602) error with the unknown name in its diagnostic
data, with the pool unchanged and no pool or connection operation
invoked. -/
theorem toolsCall_unknown_tool (env : McpEnv) (fields argFields : List (String × JValue))
    (name : String)
    (hname : jLookup fields "name" = some (.strJ name))
    (hargs : jLookup fields "arguments" = some (.objJ argFields))
    (hunknown : name ∉ dispatchedToolNames) :
    handleToolsCall env (.objJ fields) =
      (env.pool, .rpcError (-32602) "Invalid params" (some ("unknown tool: " ++ name)),
        []) := by
  simp only [dispatchedToolNames, List.mem_cons, List.not_mem_nil, or_false, not_or] at hunknown
  obtain ⟨n1, n2, n3, n4⟩ := hunknown
  unfold handleToolsCall
  dsimp only
  rw [hname, hargs]
  simp only [asString, asObj]
  rw [if_neg n1, if_neg n2, if_neg n3, if_neg n4]

/-- Witness for C9: the tool name "nonexistent_tool" on `env0`. -/
theorem toolsCall_unknown_tool_witness :
    jLookup [("name", JValue.strJ "nonexistent_tool"), ("arguments", JValue.objJ [])]
      "name" = some (.strJ "nonexistent_tool") ∧
    "nonexistent_tool" ∉ dispatchedToolNames ∧
    handleToolsCall env0 (.objJ [("name", JValue.strJ "nonexistent_tool"),
        ("arguments", JValue.objJ [])]) =
      (env0.pool, .rpcError (-32602) "Invalid params"
        (some ("unknown tool: " ++ "nonexistent_tool")), []) :=
  ⟨rfl, by decide,
   toolsCall_unknown_tool env0
     [("name", JValue.strJ "nonexistent_tool"), ("arguments", JValue.objJ [])]
     [] "nonexistent_tool" rfl rfl (by decide)⟩

/-- C10: when the optional "args" argument is present but is not an
array, `toolExecuteQuery` and `toolExecuteStatement` behave exactly as if
"args" had been omitted (same response, same pool, same invoked
operations), and the parsed bound-parameter list is empty — in
particular no InvalidParams rejection arises from the malformed value. -/
theorem tool_args_non_array_ignored (env : McpEnv) (args : List (String × JValue))
    (v : JValue) (hv : jLookup args "args" = some v) (hna : v.isArr = false) :
    toolExecuteQuery env args = toolExecuteQuery env (jErase args "args") ∧
    toolExecuteStatement env args = toolExecuteStatement env (jErase args "args") ∧
    parseOptionalArgs args = [] := by
  have hpa : parseOptionalArgs args = [] := by
    unfold parseOptionalArgs
    rw [hv]
    cases v with
    | arrJ xs => simp [JValue.isArr] at hna
    | nullJ => rfl
    | boolJ b => rfl
    | numJ n => rfl
    | strJ s => rfl
    | objJ fs => rfl
  have hpe : parseOptionalArgs (jErase args "args") = [] := by
    unfold parseOptionalArgs
    rw [jLookup_jErase_self]
  have h1 : jLookup (jErase args "args") "connection_id" = jLookup args "connection_id" :=
    jLookup_jErase_ne (by decide) args
  have h2 : jLookup (jErase args "args") "query" = jLookup args "query" :=
    jLookup_jErase_ne (by decide) args
  have h3 : jLookup (jErase args "args") "statement" = jLookup args "statement" :=
    jLookup_jErase_ne (by decide) args
  refine ⟨?_, ?_, hpa⟩
  · unfold toolExecuteQuery
    rw [h1, h2, hpa, hpe]
  · unfold toolExecuteStatement
    rw [h1, h3, hpa, hpe]

/-- Witness for C10: an "args" value that is a plain string. -/
theorem tool_args_non_array_ignored_witness :
    jLookup [("connection_id", JValue.strJ "a"), ("query", JValue.strJ "SELECT 1"),
        ("statement", JValue.strJ "DELETE FROM t"), ("args", JValue.strJ "oops")]
      "args" = some (.strJ "oops") ∧
    (JValue.strJ "oops").isArr = false ∧
    parseOptionalArgs [("connection_id", JValue.strJ "a"),
        ("query", JValue.strJ "SELECT 1"), ("statement", JValue.strJ "DELETE FROM t"),
        ("args", JValue.strJ "oops")] = [] :=
  ⟨rfl, rfl,
   (tool_args_non_array_ignored env0
      [("connection_id", JValue.strJ "a"), ("query", JValue.strJ "SELECT 1"),
       ("statement", JValue.strJ "DELETE FROM t"), ("args", JValue.strJ "oops")]
      (.strJ "oops") rfl rfl).2.2⟩
